import Mathlib

/-!
Verification of the control/validation binding pipeline of a declarative
form-construction library (leptos_form_tool). The definitions below are a
shallow embedding of the Rust source: signals become explicit state values,
closures become Lean functions, and `Result` becomes `Except`. Reactive
side effects (writing to a signal) are modelled by returning the updated
state component.
-/

/-- Modelled from the spec: the per-control `ValidationState` tagged union
`Passed | ParseError(Message) | ValidationError(Message)` (its Rust enum
declaration is not among the provided source files; only its uses are). -/
inductive ValidationState where
  | Passed : ValidationState
  | ParseError : String → ValidationState
  | ValidationError : String → ValidationState
deriving DecidableEq, Repr

/-- Modelled from the spec: `ValidationState::is_parse_err`, true exactly on
the `ParseError` variant. -/
def ValidationState.is_parse_err : ValidationState → Bool
  | ValidationState.ParseError _ => true
  | _ => false

/-- Modelled from the spec: `ValidationState::is_validation_err`, true exactly
on the `ValidationError` variant. -/
def ValidationState.is_validation_err : ValidationState → Bool
  | ValidationState.ValidationError _ => true
  | _ => false

/-- The value-setter closure built by `FormBuilder::create_value_setter`
(src/form_builder.rs lines 296-336). The reactive pieces are made explicit:
the current form data `fd` stands for the `RwSignal<FD>` contents and the
returned pair is (new form data, new validation-signal value). The stored
validation state before the edit never influences the result, exactly as in
the source, so it is not a parameter. -/
def create_value_setter {FD CRT FDT : Type}
    (validation_fn : Option (FD → Except String Unit))
    (parse_fn : CRT → Except String FDT)
    (setter : FD → FDT → FD)
    (value : CRT) (fd : FD) : FD × ValidationState :=
  match parse_fn value with
  | Except.error e => (fd, ValidationState.ParseError e)
  | Except.ok parsed =>
    let fd2 := setter fd parsed
    match validation_fn with
    | none => (fd2, ValidationState.Passed)
    | some vf =>
      match vf fd2 with
      | Except.ok _ => (fd2, ValidationState.Passed)
      | Except.error e => (fd2, ValidationState.ValidationError e)

/-- C1: the value-setter closure (a) on parse failure sets `ParseError` with
the parse message and leaves FormData unchanged; (b) on parse success stores
the parsed value through `setter`, then sets `Passed` when no validator is
configured, and otherwise sets `Passed`/`ValidationError` according to the
validator's verdict on the updated FormData. -/
theorem create_value_setter_spec {FD CRT FDT : Type}
    (validation_fn : Option (FD → Except String Unit))
    (parse_fn : CRT → Except String FDT)
    (setter : FD → FDT → FD)
    (value : CRT) (fd : FD) :
    (∀ e, parse_fn value = Except.error e →
      create_value_setter validation_fn parse_fn setter value fd
        = (fd, ValidationState.ParseError e)) ∧
    (∀ p, parse_fn value = Except.ok p →
      (create_value_setter validation_fn parse_fn setter value fd).1 = setter fd p ∧
      (validation_fn = none →
        (create_value_setter validation_fn parse_fn setter value fd).2
          = ValidationState.Passed) ∧
      (∀ vf, validation_fn = some vf →
        ((vf (setter fd p) = Except.ok () →
          (create_value_setter validation_fn parse_fn setter value fd).2
            = ValidationState.Passed) ∧
         (∀ m, vf (setter fd p) = Except.error m →
          (create_value_setter validation_fn parse_fn setter value fd).2
            = ValidationState.ValidationError m)))) := by
  refine ⟨?_, ?_⟩
  · intro e he
    simp [create_value_setter, he]
  · intro p hp
    refine ⟨?_, ?_, ?_⟩
    · simp only [create_value_setter, hp]
      cases validation_fn with
      | none => rfl
      | some vf =>
        simp only []
        cases h : vf (setter fd p) with
        | ok u => rfl
        | error m => rfl
    · intro hnone
      simp [create_value_setter, hp, hnone]
    · intro vf hvf
      refine ⟨?_, ?_⟩
      · intro hok
        simp [create_value_setter, hp, hvf, hok]
      · intro m hm
        simp [create_value_setter, hp, hvf, hm]

/-- The reactive effect installed by `FormBuilder::build_control_view`
(src/form_builder.rs lines 206-227). It re-runs on every FormData change:
if the stored state is a parse error it returns before touching anything;
otherwise, when the stored state is a validation error and a validator is
configured and now passes, the state is reset to `Passed`; finally the
displayed raw value is recomputed as `unparse_fn (getter fd)`. The returned
pair is (new validation-signal value, new displayed raw value). -/
def control_effect {FD CRT FDT : Type}
    (validation_fn : Option (FD → Except String Unit))
    (getter : FD → FDT) (unparse_fn : FDT → CRT)
    (fd : FD) (vstate : ValidationState) (displayed : CRT) :
    ValidationState × CRT :=
  if vstate.is_parse_err then (vstate, displayed)
  else
    let vstate2 :=
      if vstate.is_validation_err then
        match validation_fn with
        | some vf =>
          match vf fd with
          | Except.ok _ => ValidationState.Passed
          | Except.error _ => vstate
        | none => vstate
      else vstate
    (vstate2, unparse_fn (getter fd))

/-- The validation callback closure built by `FormBuilder::build_control_view`
(src/form_builder.rs lines 233-265). Hidden controls pass unconditionally;
a stored parse error fails unconditionally; with no validator the callback
passes without touching the state; otherwise the validator runs on the live
FormData and the state is updated to its verdict. The returned pair is
(new validation-signal value, the boolean the callback returns). -/
def validation_cb {FD CX : Type}
    (show_when : Option (FD → CX → Bool)) (cx : CX)
    (validation_fn : Option (FD → Except String Unit))
    (fd : FD) (vstate : ValidationState) : ValidationState × Bool :=
  let hidden : Bool :=
    match show_when with
    | some sw => !(sw fd cx)
    | none => false
  if hidden then (vstate, true)
  else if vstate.is_parse_err then (vstate, false)
  else
    match validation_fn with
    | none => (vstate, true)
    | some vf =>
      match vf fd with
      | Except.ok _ => (ValidationState.Passed, true)
      | Except.error e => (ValidationState.ValidationError e, false)

/-- The visibility wrapping `FormBuilder::add_control` applies to a control's
validation function before pushing it onto the form-level list
(src/form_builder.rs lines 154-171): when a `show_when` predicate is present,
the registered function first evaluates it on the given FormData and returns
`Ok(())` without running the inner validation function if it is false. -/
def add_control_validation_fn {FD CX : Type} (cx : CX)
    (show_when : Option (FD → CX → Bool))
    (validation_fn : FD → Except String Unit) : FD → Except String Unit :=
  match show_when with
  | some sw => fun fd => if sw fd cx = false then Except.ok () else validation_fn fd
  | none => validation_fn

/-- Concrete instantiation of `create_value_setter_spec`: form data is a
natural number, the raw type is a string, parsing rejects the string "bad". -/
theorem create_value_setter_spec_witness :
    @create_value_setter Nat String Nat
      (some fun n => if n = 7 then Except.ok () else Except.error "not seven")
      (fun s : String => if s = "bad" then Except.error "no parse" else Except.ok 7)
      (fun _ v => v) "7" 0
      = (7, ValidationState.Passed) := by
  have h := (create_value_setter_spec
      (some fun n => if n = 7 then Except.ok () else Except.error "not seven")
      (fun s : String => if s = "bad" then Except.error "no parse" else Except.ok 7)
      (fun _ v => v) "7" 0).2 7 (by rfl)
  have h1 := h.1
  have h2 := (h.2.2 _ rfl).1 (by rfl)
  exact Prod.ext (by simpa using h1) (by simpa using h2)

/-- C2: when a control's `show_when` predicate evaluates false on the current
FormData and context, validation is suppressed at both call sites: the
binding engine's validation callback returns true and leaves the stored
state untouched, whatever that state and whatever validator (if any) is
configured; and the wrapped validation function registered in the form-level
list returns `Ok(())` for every inner validation function. -/
theorem visible_when_false_suppresses_validation {FD CX : Type}
    (sw : FD → CX → Bool) (cx : CX) (fd : FD)
    (h : sw fd cx = false) :
    (∀ (validation_fn : Option (FD → Except String Unit))
       (vstate : ValidationState),
      validation_cb (some sw) cx validation_fn fd vstate = (vstate, true)) ∧
    (∀ vfn : FD → Except String Unit,
      add_control_validation_fn cx (some sw) vfn fd = Except.ok ()) := by
  constructor
  · intro validation_fn vstate
    simp [validation_cb, h]
  · intro vfn
    simp [add_control_validation_fn, h]

/-- Concrete instantiation of `visible_when_false_suppresses_validation`:
a control hidden on form data 0 passes its callback even while its stored
state is a validation error and its validator always fails. -/
theorem visible_when_false_suppresses_validation_witness :
    @validation_cb Nat Unit (some fun n _ => n != 0) ()
      (some fun _ => Except.error "always fails") 0
      (ValidationState.ValidationError "stale")
      = (ValidationState.ValidationError "stale", true) ∧
    @add_control_validation_fn Nat Unit ()
      (some fun n _ => n != 0) (fun _ => Except.error "always fails") 0
      = Except.ok () := by
  have h := @visible_when_false_suppresses_validation
      Nat Unit (fun n _ => n != 0) () 0 (by decide)
  exact ⟨h.1 _ _, h.2 _⟩

/-- C3: on an external FormData change the reactive effect (a) heals a stored
`ValidationError` to `Passed` whenever the configured validator now accepts
the new FormData, with no edit on the control; and (b) never changes a stored
`ParseError`, whatever the new FormData is. -/
theorem control_effect_self_heal_and_parse_error_stability {FD CRT FDT : Type}
    (validation_fn : Option (FD → Except String Unit))
    (getter : FD → FDT) (unparse_fn : FDT → CRT)
    (fd : FD) (vstate : ValidationState) (displayed : CRT) :
    (∀ m vf, vstate = ValidationState.ValidationError m →
      validation_fn = some vf → vf fd = Except.ok () →
      (control_effect validation_fn getter unparse_fn fd vstate displayed).1
        = ValidationState.Passed) ∧
    (∀ m, vstate = ValidationState.ParseError m →
      (control_effect validation_fn getter unparse_fn fd vstate displayed).1
        = ValidationState.ParseError m) := by
  constructor
  · intro m vf hv hfn hok
    subst hv; subst hfn
    simp [control_effect, ValidationState.is_parse_err,
      ValidationState.is_validation_err, hok]
  · intro m hv
    subst hv
    simp [control_effect, ValidationState.is_parse_err]

/-- Concrete instantiation of
`control_effect_self_heal_and_parse_error_stability`: a validator demanding
form data 3 heals a stale validation error once the data externally becomes
3, while a parse error persists across the same change. -/
theorem control_effect_self_heal_witness :
    (@control_effect Nat String Nat
      (some fun n => if n = 3 then Except.ok () else Except.error "not three")
      (fun n => n) (fun n => toString n) 3
      (ValidationState.ValidationError "not three") "0").1
      = ValidationState.Passed ∧
    (@control_effect Nat String Nat
      (some fun n => if n = 3 then Except.ok () else Except.error "not three")
      (fun n => n) (fun n => toString n) 3
      (ValidationState.ParseError "junk") "0").1
      = ValidationState.ParseError "junk" := by
  constructor
  · exact (control_effect_self_heal_and_parse_error_stability
      (some fun n => if n = 3 then Except.ok () else Except.error "not three")
      (fun n => n) (fun n => toString n) 3
      (ValidationState.ValidationError "not three") "0").1
      "not three" _ rfl rfl (by rfl)
  · exact (control_effect_self_heal_and_parse_error_stability
      (some fun n => if n = 3 then Except.ok () else Except.error "not three")
      (fun n => n) (fun n => toString n) 3
      (ValidationState.ParseError "junk") "0").2 "junk" rfl

/-- C4: for a control that is not hidden (no `show_when`, or the predicate is
true on the current FormData and context), the validation callback returns
false whenever the stored state is a parse error — for every configured
validator, which is not consulted — and returns true, leaving the state
untouched, when the state is not a parse error and no validator is
configured. -/
theorem validation_cb_parse_error_and_no_validator {FD CX : Type}
    (show_when : Option (FD → CX → Bool)) (cx : CX) (fd : FD)
    (vstate : ValidationState)
    (hvis : show_when = none ∨
      ∃ sw, show_when = some sw ∧ sw fd cx = true) :
    (vstate.is_parse_err = true →
      ∀ validation_fn : Option (FD → Except String Unit),
        validation_cb show_when cx validation_fn fd vstate = (vstate, false)) ∧
    (vstate.is_parse_err = false →
      validation_cb show_when cx none fd vstate = (vstate, true)) := by
  constructor
  · intro hp validation_fn
    rcases hvis with h | ⟨sw, hsw, htrue⟩
    · subst h; simp [validation_cb, hp]
    · subst hsw; simp [validation_cb, htrue, hp]
  · intro hp
    rcases hvis with h | ⟨sw, hsw, htrue⟩
    · subst h; simp [validation_cb, hp]
    · subst hsw; simp [validation_cb, htrue, hp]

/-- Concrete instantiation of `validation_cb_parse_error_and_no_validator`:
an always-visible control with a stored parse error fails its callback even
though its validator always accepts, and an ungated validator-free control
passes. -/
theorem validation_cb_parse_error_witness :
    @validation_cb Nat Unit (some fun _ _ => true) ()
      (some fun _ => Except.ok ()) 0 (ValidationState.ParseError "junk")
      = (ValidationState.ParseError "junk", false) ∧
    @validation_cb Nat Unit none () none 0 ValidationState.Passed
      = (ValidationState.Passed, true) := by
  constructor
  · exact (validation_cb_parse_error_and_no_validator
      (some fun _ _ => true) () 0 (ValidationState.ParseError "junk")
      (Or.inr ⟨_, rfl, rfl⟩)).1 rfl _
  · exact (@validation_cb_parse_error_and_no_validator
      Nat Unit none () 0 ValidationState.Passed
      (Or.inl rfl)).2 rfl

/-- C10: while the stored state is a parse error, the reactive effect returns
before recomputing the display, so the displayed raw value is unchanged by
every external FormData mutation. -/
theorem control_effect_parse_error_freezes_display {FD CRT FDT : Type}
    (validation_fn : Option (FD → Except String Unit))
    (getter : FD → FDT) (unparse_fn : FDT → CRT)
    (vstate : ValidationState) (displayed : CRT)
    (hp : vstate.is_parse_err = true) :
    ∀ fd : FD,
      control_effect validation_fn getter unparse_fn fd vstate displayed
        = (vstate, displayed) := by
  intro fd
  simp [control_effect, hp]

/-- Concrete instantiation of `control_effect_parse_error_freezes_display`:
with a parse error stored, an external change of the data to 42 leaves the
displayed string "old" in place. -/
theorem control_effect_parse_error_freezes_display_witness :
    @control_effect Nat String Nat none (fun n => n)
      (fun n => toString n) 42 (ValidationState.ParseError "junk") "old"
      = (ValidationState.ParseError "junk", "old") :=
  control_effect_parse_error_freezes_display none (fun n => n)
    (fun n => toString n) (ValidationState.ParseError "junk") "old" rfl 42

/-- Runs a list of validation callbacks in order, threading the shared state
through all of them and collecting every callback's boolean result. This is
the specification yardstick ("every callback is evaluated") against which the
group and submit loops are compared. -/
def thread_results {σ : Type} : List (σ → σ × Bool) → σ → σ × List Bool
  | [], s => (s, [])
  | cb :: rest, s =>
    let r := cb s
    let t := thread_results rest r.1
    (t.1, r.2 :: t.2)

/-- The group validation callback built by `FormBuilder::group`
(src/controls/group.rs lines 34-43): it starts with `success = true`, runs
every child callback (entries are `Option` because vanity controls
contribute no callback, mirroring `.flatten()`), clears `success` on each
failure, and returns the flag. The shared state `σ` stands for the
collection of signals the child closures capture. -/
def group_validation_cb {σ : Type}
    (validation_cbs : List (Option (σ → σ × Bool))) (s : σ) : σ × Bool :=
  (validation_cbs.filterMap id).foldl
    (fun acc cb =>
      let r := cb acc.1
      (r.1, acc.2 && r.2))
    (s, true)

/-- The validation loop in the `on_submit` handler built by
`FormBuilder::build_form` (src/form_builder.rs lines 368-383): callbacks run
in order and the loop returns early on the first failure; the submission is
dispatched only when the loop finishes with every callback passing. -/
def submit_validation_loop {σ : Type} : List (σ → σ × Bool) → σ → σ × Bool
  | [], s => (s, true)
  | cb :: rest, s =>
    let r := cb s
    if r.2 then submit_validation_loop rest r.1 else (r.1, false)

/-- The `on_submit` handler of `FormBuilder::build_form`
(src/form_builder.rs lines 368-383), restricted to its validation/dispatch
decision: it runs `submit_validation_loop` over the present callbacks
(mirroring `.flatten()`) and dispatches the server function exactly when the
loop returned true. The result is (final state, dispatched?). -/
def build_form_on_submit {σ : Type}
    (validation_cbs : List (Option (σ → σ × Bool))) (s : σ) : σ × Bool :=
  submit_validation_loop (validation_cbs.filterMap id) s

/-- `FormValidator` (src/form.rs lines 15-17): the view-free list of
registered per-field validation functions. -/
structure FormValidator (FD : Type) where
  validations : List (FD → Except String Unit)

/-- The loop body of `FormValidator::validate` (src/form.rs lines 24-29):
the `?` operator returns the first failure and skips the remaining
functions. -/
def run_validations {FD : Type} :
    List (FD → Except String Unit) → FD → Except String Unit
  | [], _ => Except.ok ()
  | v :: rest, fd =>
    match v fd with
    | Except.ok _ => run_validations rest fd
    | Except.error e => Except.error e

/-- `FormValidator::validate` (src/form.rs lines 24-29). -/
def FormValidator.validate {FD : Type} (v : FormValidator FD) (fd : FD) :
    Except String Unit :=
  run_validations v.validations fd

/-- `ControlBuildError` (src/controls/mod.rs lines 151-161). -/
inductive ControlBuildError where
  | MissingGetter : ControlBuildError
  | MissingSetter : ControlBuildError
  | MissingParseFn : ControlBuildError
  | MissingUnParseFn : ControlBuildError
deriving DecidableEq, Repr

/-- The `Display` implementation of `ControlBuildError`
(src/controls/mod.rs lines 162-172). -/
def ControlBuildError.message : ControlBuildError → String
  | ControlBuildError.MissingGetter => "missing getter function"
  | ControlBuildError.MissingSetter => "missing setter function"
  | ControlBuildError.MissingParseFn => "missing parse function"
  | ControlBuildError.MissingUnParseFn => "missing unparse function"

/-- `BuiltControlData` (src/controls/mod.rs lines 175-183), keeping the
binding functions; the render/styling payload is opaque to the binding
pipeline and is not carried. -/
structure BuiltControlData (FD CRT FDT CX : Type) where
  getter : FD → FDT
  setter : FD → FDT → FD
  parse_fn : CRT → Except String FDT
  unparse_fn : FDT → CRT
  validation_fn : Option (FD → Except String Unit)
  show_when : Option (FD → CX → Bool)

/-- `ControlBuilder` (src/controls/mod.rs lines 186-195), keeping the
binding-relevant fields; the styling attributes and control payload are
opaque to the binding pipeline and are not carried. -/
structure ControlBuilder (FD CRT FDT CX : Type) where
  getter : Option (FD → FDT)
  setter : Option (FD → FDT → FD)
  parse_fn : Option (CRT → Except String FDT)
  unparse_fn : Option (FDT → CRT)
  validation_fn : Option (FD → Except String Unit)
  show_when : Option (FD → CX → Bool)

/-- `ControlBuilder::build` (src/controls/mod.rs lines 215-245): each of the
four required pieces is checked in turn and the first missing one is
reported; on success the built data carries exactly the configured
functions. -/
def ControlBuilder.build {FD CRT FDT CX : Type}
    (b : ControlBuilder FD CRT FDT CX) :
    Except ControlBuildError (BuiltControlData FD CRT FDT CX) :=
  match b.getter with
  | none => Except.error ControlBuildError.MissingGetter
  | some getter =>
    match b.setter with
    | none => Except.error ControlBuildError.MissingSetter
    | some setter =>
      match b.parse_fn with
      | none => Except.error ControlBuildError.MissingParseFn
      | some parse_fn =>
        match b.unparse_fn with
        | none => Except.error ControlBuildError.MissingUnParseFn
        | some unparse_fn =>
          Except.ok
            ⟨getter, setter, parse_fn, unparse_fn,
              b.validation_fn, b.show_when⟩

/-- The outcome of `FormBuilder::add_control` (src/form_builder.rs lines
139-152): either the built control is added, or form building aborts
(`panic!`) with a message. -/
inductive AddControlResult (α : Type) where
  | added : α → AddControlResult α
  | aborted : String → AddControlResult α
deriving Repr

/-- The build-and-abort step of `FormBuilder::add_control`
(src/form_builder.rs lines 143-151): `item_name` is the last path segment of
the control type's name; a failed build aborts with the
`Invalid Component ({name}): {error}` message. -/
def add_control_build_step {FD CRT FDT CX : Type} (item_name : String)
    (b : ControlBuilder FD CRT FDT CX) :
    AddControlResult (BuiltControlData FD CRT FDT CX) :=
  match b.build with
  | Except.ok c => AddControlResult.added c
  | Except.error e =>
    AddControlResult.aborted
      ("Invalid Component (" ++ item_name ++ "): " ++ e.message)

/-- The parse half installed by `ControlBuilder::parse_string`
(src/controls/mod.rs lines 365-373): the field type's `FromStr` is run on
the raw string and its error is stringified. `fromStr` and `showErr` stand
for the `FromStr` implementation and the `ToString` of its error type. -/
def parse_string_parse_fn {FDT E : Type}
    (fromStr : String → Except E FDT) (showErr : E → String) :
    String → Except String FDT :=
  fun s =>
    match fromStr s with
    | Except.ok v => Except.ok v
    | Except.error e => Except.error (showErr e)

/-- The unparse half installed by `ControlBuilder::parse_string`
(src/controls/mod.rs lines 365-373): the field type's `ToString`. -/
def parse_string_unparse_fn {FDT : Type} (toStr : FDT → String) :
    FDT → String :=
  toStr

/-- A callback that bumps a counter (so executions are observable) and
returns a fixed verdict; used to instantiate the callback loops. -/
def count_and_return (b : Bool) : Nat → Nat × Bool :=
  fun n => (n + 1, b)

/-- The group fold with an arbitrary starting flag equals full threaded
execution with the flag conjoined onto the conjunction of all results. -/
theorem group_foldl_thread {σ : Type} (cbs : List (σ → σ × Bool))
    (s : σ) (b : Bool) :
    cbs.foldl
      (fun acc cb =>
        let r := cb acc.1
        (r.1, acc.2 && r.2))
      (s, b)
      = ((thread_results cbs s).1, b && (thread_results cbs s).2.all id) := by
  induction cbs generalizing s b with
  | nil => simp [thread_results]
  | cons cb rest ih =>
    simp [thread_results, List.foldl, ih, Bool.and_assoc]

/-- C5: a group's validation callback evaluates every present child callback
(the final state is that of running the full child list in order) and
returns true exactly when every child returned true; in particular child
results [true, false, true] aggregate to false with all three children
executed. -/
theorem group_validation_cb_spec :
    (∀ (σ : Type) (validation_cbs : List (Option (σ → σ × Bool))) (s : σ),
      group_validation_cb validation_cbs s
        = ((thread_results (validation_cbs.filterMap id) s).1,
            (thread_results (validation_cbs.filterMap id) s).2.all id)) ∧
    group_validation_cb
      [some (count_and_return true), some (count_and_return false),
        some (count_and_return true)] 0
      = (3, false) := by
  constructor
  · intro σ validation_cbs s
    simpa [group_validation_cb] using
      group_foldl_thread (validation_cbs.filterMap id) s true
  · decide

/-- `run_validations` succeeds exactly when every registered function
accepts the data. -/
theorem run_validations_ok_iff {FD : Type}
    (l : List (FD → Except String Unit)) (fd : FD) :
    run_validations l fd = Except.ok () ↔
      ∀ f ∈ l, f fd = Except.ok () := by
  induction l with
  | nil => simp [run_validations]
  | cons v rest ih =>
    constructor
    · intro h
      cases hv : v fd with
      | ok u =>
        cases u
        intro f hf
        rcases List.mem_cons.mp hf with h1 | h2
        · subst h1; exact hv
        · exact (ih.mp (by simpa [run_validations, hv] using h)) f h2
      | error e => simp [run_validations, hv] at h
    · intro h
      have hv := h v (List.mem_cons_self v rest)
      simp only [run_validations, hv]
      exact ih.mpr fun f hf => h f (List.mem_cons_of_mem v hf)

/-- `run_validations` returns the error of the first failing function,
whatever comes after it. -/
theorem run_validations_first_error {FD : Type}
    (pre : List (FD → Except String Unit)) (f : FD → Except String Unit)
    (post : List (FD → Except String Unit)) (fd : FD) (e : String)
    (hpre : ∀ g ∈ pre, g fd = Except.ok ())
    (hf : f fd = Except.error e) :
    run_validations (pre ++ f :: post) fd = Except.error e := by
  induction pre with
  | nil => simp [run_validations, hf]
  | cons g rest ih =>
    have hg := hpre g (List.mem_cons_self g rest)
    simp only [List.cons_append, run_validations, hg]
    exact ih fun g' hg' => hpre g' (List.mem_cons_of_mem g hg')

/-- C6: `FormValidator::validate` returns `Ok(())` exactly when every
registered validation function accepts the data, and it returns the error
of the first failing function, short-circuiting so that the functions after
the first failure are never consulted (the result does not depend on them). -/
theorem form_validator_validate_spec {FD : Type}
    (v : FormValidator FD) (fd : FD) :
    (v.validate fd = Except.ok () ↔
      ∀ f ∈ v.validations, f fd = Except.ok ()) ∧
    (∀ pre f post e, v.validations = pre ++ f :: post →
      (∀ g ∈ pre, g fd = Except.ok ()) → f fd = Except.error e →
      v.validate fd = Except.error e) := by
  constructor
  · exact run_validations_ok_iff v.validations fd
  · intro pre f post e hsplit hpre hf
    unfold FormValidator.validate
    rw [hsplit]
    exact run_validations_first_error pre f post fd e hpre hf

/-- Concrete instantiation of `form_validator_validate_spec`: the second
function fails with "boom", so validation surfaces "boom" even though the
third function would also fail. -/
theorem form_validator_validate_spec_witness :
    @FormValidator.validate Nat
      ⟨[fun _ => Except.ok (), fun _ => Except.error "boom",
        fun _ => Except.error "later"]⟩ 0
      = Except.error "boom" :=
  (form_validator_validate_spec
      ⟨[fun _ => Except.ok (), fun _ => Except.error "boom",
        fun _ => Except.error "later"]⟩ 0).2
    [fun _ => Except.ok ()] (fun _ => Except.error "boom")
    [fun _ => Except.error "later"] "boom" rfl
    (by intro g hg; simp at hg; subst hg; rfl) rfl

/-- C7 counterexample: in the `on_submit` handler of
`FormBuilder::build_form`, when the first of two callbacks fails, the second
is never executed (the counter reaches 1, not the 2 that running every
callback would produce), so submission does not run every per-control
validation callback. -/
theorem build_form_on_submit_counterexample :
    ¬ ((build_form_on_submit
          [some (count_and_return false), some (count_and_return true)] 0).1
        = (thread_results [count_and_return false, count_and_return true] 0).1)
      ∧ (build_form_on_submit
          [some (count_and_return false), some (count_and_return true)] 0).1
        = 1 := by
  constructor
  · decide
  · decide

/-- C7 (amended): the `on_submit` handler runs the per-control validation
callbacks in order, stopping at the first one that fails, and dispatches the
submission exactly when all callbacks return true — in which case every
callback has been run. -/
theorem build_form_on_submit_spec {σ : Type}
    (validation_cbs : List (Option (σ → σ × Bool))) (s : σ) :
    ((build_form_on_submit validation_cbs s).2
      = (thread_results (validation_cbs.filterMap id) s).2.all id) ∧
    ((thread_results (validation_cbs.filterMap id) s).2.all id = true →
      build_form_on_submit validation_cbs s
        = ((thread_results (validation_cbs.filterMap id) s).1, true)) ∧
    (∀ pre cb post, validation_cbs.filterMap id = pre ++ cb :: post →
      (thread_results pre s).2.all id = true →
      (cb (thread_results pre s).1).2 = false →
      build_form_on_submit validation_cbs s
        = ((cb (thread_results pre s).1).1, false)) := by
  have loop_flag : ∀ (l : List (σ → σ × Bool)) (t : σ),
      (submit_validation_loop l t).2 = (thread_results l t).2.all id := by
    intro l
    induction l with
    | nil => intro t; simp [submit_validation_loop, thread_results]
    | cons cb rest ih =>
      intro t
      by_cases hc : (cb t).2 = true
      · simp [submit_validation_loop, thread_results, hc, ih]
      · simp only [Bool.not_eq_true] at hc
        simp [submit_validation_loop, thread_results, hc]
  have loop_all : ∀ (l : List (σ → σ × Bool)) (t : σ),
      (thread_results l t).2.all id = true →
      submit_validation_loop l t = ((thread_results l t).1, true) := by
    intro l
    induction l with
    | nil => intro t _; simp [submit_validation_loop, thread_results]
    | cons cb rest ih =>
      intro t hall
      simp only [thread_results, List.all_cons, Bool.and_eq_true, id] at hall
      simp [submit_validation_loop, thread_results, hall.1, ih _ hall.2]
  refine ⟨loop_flag _ s, fun h => loop_all _ s h, ?_⟩
  intro pre cb post hsplit hpre hcb
  unfold build_form_on_submit
  rw [hsplit]
  clear hsplit
  induction pre generalizing s with
  | nil =>
    simp only [thread_results] at hcb ⊢
    simp [submit_validation_loop, hcb]
  | cons p rest ih =>
    simp only [thread_results, List.all_cons, Bool.and_eq_true, id] at hpre
    simp only [thread_results] at hcb ⊢
    simp only [List.cons_append, submit_validation_loop, hpre.1, if_true]
    exact ih _ hpre.2 hcb

/-- Concrete instantiation of `build_form_on_submit_spec`: with a failing
first callback, the handler stops after it and does not dispatch. -/
theorem build_form_on_submit_spec_witness :
    build_form_on_submit
      [some (count_and_return false), some (count_and_return true)] 0
      = (1, false) := by
  have h := (build_form_on_submit_spec
      [some (count_and_return false), some (count_and_return true)] 0).2.2
      [] (count_and_return false) [count_and_return true] rfl (by decide)
      (by decide)
  simpa [count_and_return, thread_results] using h

/-- C8: building an interactive control fails — and `add_control` then aborts
with the `Invalid Component ({type}): {missing piece}` message — exactly when
at least one of getter, setter, parse function, or unparse function is
unset; when all four are set, the build succeeds and the built control
carries exactly the configured functions. -/
theorem control_builder_build_spec {FD CRT FDT CX : Type}
    (b : ControlBuilder FD CRT FDT CX) (item_name : String) :
    ((∃ e, b.build = Except.error e) ↔
      (b.getter = none ∨ b.setter = none ∨ b.parse_fn = none ∨
        b.unparse_fn = none)) ∧
    (∀ e, b.build = Except.error e →
      add_control_build_step item_name b
        = AddControlResult.aborted
            ("Invalid Component (" ++ item_name ++ "): " ++ e.message)) ∧
    (∀ g st p u, b.getter = some g → b.setter = some st →
      b.parse_fn = some p → b.unparse_fn = some u →
      b.build = Except.ok ⟨g, st, p, u, b.validation_fn, b.show_when⟩) := by
  obtain ⟨og, os, op, ou, vf, sw⟩ := b
  cases og <;> cases os <;> cases op <;> cases ou <;>
    simp [ControlBuilder.build, add_control_build_step] <;>
    exact fun g st p u hg hst hp hu =>
      ⟨hg, hst, hp, hu⟩

/-- Concrete instantiation of `control_builder_build_spec`: a fully
configured builder over Nat form data builds successfully and carries the
configured functions; one missing a setter aborts naming the missing piece. -/
theorem control_builder_build_spec_witness :
    @ControlBuilder.build Nat String Nat Unit
      ⟨some (fun n => n), some (fun _ v => v),
        some (fun _ => Except.ok 0), some (fun n => toString n),
        none, none⟩
      = Except.ok
          ⟨fun n => n, fun _ v => v, fun _ => Except.ok 0,
            fun n => toString n, none, none⟩ ∧
    @add_control_build_step Nat String Nat Unit "TextInputData"
      ⟨some (fun n => n), none, some (fun _ => Except.ok 0),
        some (fun n => toString n), none, none⟩
      = AddControlResult.aborted
          "Invalid Component (TextInputData): missing setter function" := by
  constructor
  · exact (control_builder_build_spec
      ⟨some (fun n => n), some (fun _ v => v),
        some (fun _ => Except.ok 0), some (fun n => toString n),
        none, none⟩ "TextInputData").2.2 _ _ _ _ rfl rfl rfl rfl
  · exact (control_builder_build_spec
      ⟨some (fun n => n), none, some (fun _ => Except.ok 0),
        some (fun n => toString n), none, none⟩ "TextInputData").2.1
      ControlBuildError.MissingSetter rfl

/-- C9: for a control configured with `parse_string` over a semantic type
whose `FromStr` inverts its `ToString`, unparsing any representable value
and parsing it back yields `Ok` of that value. -/
theorem parse_string_round_trip {FDT E : Type}
    (fromStr : String → Except E FDT) (showErr : E → String)
    (toStr : FDT → String)
    (h : ∀ v, fromStr (toStr v) = Except.ok v) (v : FDT) :
    parse_string_parse_fn fromStr showErr (parse_string_unparse_fn toStr v)
      = Except.ok v := by
  simp [parse_string_parse_fn, parse_string_unparse_fn, h v]

/-- A `FromStr` for Bool that inverts `toString`, for instantiating the
round-trip theorem. -/
def boolFromStr (s : String) : Except String Bool :=
  if s = "true" then Except.ok true
  else if s = "false" then Except.ok false
  else Except.error "invalid bool"

/-- Concrete instantiation of `parse_string_round_trip` at the Bool field
type: parsing back the unparse of `true` yields `Ok true`. -/
theorem parse_string_round_trip_witness :
    parse_string_parse_fn boolFromStr id
      (parse_string_unparse_fn (fun b : Bool => toString b) true)
      = Except.ok true :=
  parse_string_round_trip boolFromStr id (fun b : Bool => toString b)
    (fun v => by cases v <;> rfl) true
